import Mathlib

/-!
Verification development for the notification-admission gateway
(API gateway service).  The definitions below are a shallow embedding of
the Python sources:

 - app/schemas/notification.py   (request / response / payload shapes)
 - app/services/status_service.py  (Redis-backed idempotency and status store)
 - app/services/queue_service.py   (RabbitMQ publisher)
 - app/core/circuit_breaker.py     (breaker instances and wrappers)
 - app/api/v1/endpoints/notifications.py (the admission pipeline endpoints)

The Redis key space is modelled as in-memory association lists; wall-clock
timestamps (datetime.utcnow) are explicit Nat parameters; the downstream
user service and the queue transport are modelled as explicit outcome
parameters, since their implementations live outside this repository.
-/

namespace Gateway

/-- Association-list lookup, first binding wins (models a Redis GET on the
    corresponding key). -/
def alookup {α : Type} : List (String × α) → String → Option α
  | [], _ => none
  | (k, v) :: rest, key => if k = key then some v else alookup rest key

/-- Association-list overwrite-insert (models a Redis SET / SETEX on the
    corresponding key). -/
def ainsert {α : Type} (l : List (String × α)) (key : String) (v : α) :
    List (String × α) :=
  (key, v) :: l.filter (fun p => p.1 ≠ key)

/-- The two notification channels of app/schemas/notification.py
    (class NotificationType). -/
inductive NotificationType
  | email
  | push
deriving DecidableEq, Repr

/-- The user document returned by
    UserService.get_user_data_and_preferences: contact fields plus the
    per-channel preference flags read from data.preferences. -/
structure UserData where
  email : Option String
  push_token : Option String
  prefEmail : Bool
  prefPush : Bool
deriving DecidableEq, Repr

/-- Recipient of app/schemas/notification.py: the user identifier lives
    here, nested inside the request, not at its top level. -/
structure Recipient where
  user_id : String
  email : Option String
  push_token : Option String
deriving DecidableEq, Repr

/-- Meta of app/schemas/notification.py: the priority lives here, nested
    inside the request, not at its top level. -/
structure Meta where
  priority : String
  timestamp : Nat
deriving DecidableEq, Repr

/-- NotificationRequest of app/schemas/notification.py (the variables
    map is omitted as no claim reads it).  Note the shape: there is no
    top-level user_id and no top-level priority attribute; the user
    identifier sits in recipient and the priority in meta.  The
    admission endpoint nevertheless reads request.user_id (line 99) and
    request.priority (line 171). -/
structure NotificationRequest where
  request_id : String
  correlation_id : String
  notification_id : String
  notification_type : NotificationType
  template_id : String
  recipient : Recipient
  meta : Meta
deriving DecidableEq, Repr

/-- Message of the uncaught exception surfaced with status 500 by the
    generic exception handler of app/core/exceptions.py: evaluating
    str(request.user_id) at notifications.py line 99 raises
    AttributeError, because NotificationRequest defines no user_id
    attribute, and none of the except clauses of the endpoint
    (CircuitBreakerError, HTTPStatusError, RequestError) matches it. -/
def attributeErrorDetail : String :=
  "AttributeError: NotificationRequest object has no attribute user_id"

/-- NotificationResponse of app/schemas/notification.py. -/
structure NotificationResponse where
  request_id : String
  notification_id : String
  status : String
  notification_type : NotificationType
  created_at : Nat
  message : String
deriving DecidableEq, Repr

/-- Default message field of NotificationResponse. -/
def defaultResponseMessage : String := "Notification queued successfully"

/-- The serialized status document stored by StatusService under the key
    notification:status:id.  It is NotificationResponse.model_dump()
    plus the updated_at field added by set_initial_status and the
    error_message field optionally added by update_status. -/
structure StatusRecord where
  request_id : String
  notification_id : String
  status : String
  notification_type : NotificationType
  created_at : Nat
  updated_at : Nat
  message : String
  error_message : Option String
deriving DecidableEq, Repr

/-- QueueMessagePayload of app/schemas/notification.py: the work item
    published to the queue (the recipient object is flattened into its
    three fields). -/
structure QueueMessagePayload where
  request_id : String
  correlation_id : String
  notification_id : String
  notification_type : NotificationType
  template_id : String
  recipient_user_id : String
  recipient_email : Option String
  recipient_push_token : Option String
  priority : String
  meta_timestamp : Nat
  template_validated : Bool
  user_preferences_checked : Bool
  queued_at : Nat
deriving DecidableEq, Repr

/-- The Redis key space used by StatusService: the idempotency
    key-to-notification-id table and the notification-status table. -/
structure Store where
  idem : List (String × String)
  statusTab : List (String × StatusRecord)
deriving DecidableEq, Repr

def emptyStore : Store := { idem := [], statusTab := [] }

/-- StatusService.set_idempotency_key: a single atomic set-if-not-exists
    (Redis SET ... NX) binding the idempotency key to the notification id;
    returns whether this call created the binding. -/
def set_idempotency_key (s : Store) (idempotency_key notification_id : String) :
    Bool × Store :=
  match alookup s.idem idempotency_key with
  | some _ => (false, s)
  | none => (true, { s with idem := ainsert s.idem idempotency_key notification_id })

/-- StatusService.check_idempotency_key: non-mutating read of the
    idempotency table. -/
def check_idempotency_key (s : Store) (idempotency_key : String) : Option String :=
  alookup s.idem idempotency_key

/-- Modelled from the spec: idempotency_service.check_and_store_idempotency_key,
    imported by the admission endpoint but missing from the sources.  Per
    spec section 4.4 (acquireIdempotencyLock) and step 2 of the pipeline it
    atomically creates the key-to-id binding only if absent, and reports
    (already_processed, winning notification id), so a loser observes the
    winner's identifier and never creates a second binding. -/
def check_and_store_idempotency_key (s : Store) (request_id notification_id : String) :
    (Bool × String) × Store :=
  match alookup s.idem request_id with
  | some existing => ((true, existing), s)
  | none =>
      ((false, notification_id),
       { s with idem := ainsert s.idem request_id notification_id })

/-- StatusService.set_initial_status: stores the NotificationResponse
    dump under the notification id, adding updated_at equal to created_at
    (with the status TTL). -/
def set_initial_status (s : Store) (resp : NotificationResponse) : Store :=
  { s with
    statusTab := ainsert s.statusTab resp.notification_id
      { request_id := resp.request_id
        notification_id := resp.notification_id
        status := resp.status
        notification_type := resp.notification_type
        created_at := resp.created_at
        updated_at := resp.created_at
        message := resp.message
        error_message := none } }

/-- StatusService.get_status: non-mutating read of the status table;
    none models both never-created and expired records. -/
def get_status (s : Store) (notification_id : String) : Option StatusRecord :=
  alookup s.statusTab notification_id

/-- StatusService.update_status: read the record, overwrite status and
    updated_at (datetime.utcnow at call time), set error_message when the
    given message is truthy, and write back refreshing the TTL; returns
    false when the record does not exist. -/
def update_status (s : Store) (notification_id new_status : String)
    (error_message : Option String) (now : Nat) : Bool × Store :=
  match alookup s.statusTab notification_id with
  | none => (false, s)
  | some r =>
      let r2 : StatusRecord :=
        { r with
          status := new_status
          updated_at := now
          error_message :=
            match error_message with
            | some e => if e = "" then r.error_message else some e
            | none => r.error_message }
      (true, { s with statusTab := ainsert s.statusTab notification_id r2 })

/-- Outcome of the circuit-breaker-wrapped call to
    UserService.get_user_data_and_preferences, as the admission endpoint
    distinguishes the cases: success, pybreaker.CircuitBreakerError,
    httpx.HTTPStatusError with a response code, or httpx.RequestError. -/
inductive UserLookupOutcome
  | ok (data : UserData)
  | breakerOpen
  | httpStatus (code : Nat) (text : String)
  | requestError
deriving DecidableEq, Repr

/-- Outcome of QueueService.publish_notification as seen by the admission
    endpoint: success, an HTTPException raised by the queue service
    (re-raised as is), or any other exception (mapped to a 500). -/
inductive PublishOutcome
  | ok
  | httpError (code : Nat) (detail : String)
  | otherError (msg : String)
deriving DecidableEq, Repr

/-- The downstream world of one admission attempt: what the user-service
    call and the queue publish would return if performed. -/
structure Env where
  userLookup : UserLookupOutcome
  publish : PublishOutcome
deriving DecidableEq, Repr

/-- Observable side effects of one admission attempt: the atomic
    idempotency check-and-store, a status read, a user-service lookup, a
    queue publish carrying the work item, and the creation of the
    initial status record.  The last three constructors exist so that
    their absence from a trace is expressible: the endpoint as written
    never reaches the lookup, the publish or the status creation on the
    fresh-key path. -/
inductive Effect
  | idemCheck (key : String)
  | statusGet (notification_id : String)
  | userLookup (user_id : String)
  | publish (payload : QueueMessagePayload)
  | statusCreate (notification_id : String)
deriving DecidableEq, Repr

/-- Result of the send endpoint: the 202 APIResponse (payload plus the
    top-level message string) or an HTTPException with status code and
    detail. -/
inductive SendResult
  | accepted (resp : NotificationResponse) (msg : String)
  | error (code : Nat) (detail : String)
deriving DecidableEq, Repr

/-- send_notification of app/api/v1/endpoints/notifications.py: the
    admission endpoint.  The arguments now and freshId stand for
    datetime.utcnow() and the freshly generated notification id; the
    request carries the client-supplied idempotency key in request_id;
    env stands for the downstream world (user service and queue), which
    no branch of the endpoint as written ever reaches.  The duplicate
    branch is modelled as written.  On the fresh-key branch the endpoint
    next evaluates str(request.user_id) as the argument of the user
    lookup (line 99): NotificationRequest defines no user_id attribute,
    so an AttributeError is raised inside the try block before any
    downstream call, matches none of the except clauses, and surfaces
    through the generic exception handler of app/core/exceptions.py as
    a 500 response; the user service is never invoked, nothing is
    published and no status record is written, while the idempotency key
    stays claimed.  Returns the response, the final store and the effect
    trace. -/
def send_notification (env : Env) (now : Nat) (freshId : String)
    (req : NotificationRequest) (s0 : Store) :
    SendResult × Store × List Effect :=
  match check_and_store_idempotency_key s0 req.request_id freshId with
  | ((true, existingId), s1) =>
      -- Duplicate: return the cached status, or fall back to a queued
      -- response when the status record has expired.
      (match get_status s1 existingId with
       | some cached =>
           SendResult.accepted
             { request_id := cached.request_id
               notification_id := cached.notification_id
               status := cached.status
               notification_type := cached.notification_type
               created_at := cached.created_at
               message := defaultResponseMessage }
             ("Idempotent request: Notification " ++ existingId ++
              " status retrieved.")
       | none =>
           SendResult.accepted
             { request_id := req.request_id
               notification_id := existingId
               status := "queued"
               notification_type := req.notification_type
               created_at := now
               message := defaultResponseMessage }
             ("Idempotent request: Notification " ++ existingId ++
              " status retrieved."),
       s1,
       [Effect.idemCheck req.request_id, Effect.statusGet existingId])
  | ((false, _), s1) =>
      -- Fresh key: the next statement of the endpoint reads
      -- request.user_id, which does not exist on the request model.
      (SendResult.error 500 attributeErrorDetail, s1,
       [Effect.idemCheck req.request_id])

/-- Pydantic validation of the channel field of the inbound body: only
    the two NotificationType values parse (schemas/notification.py). -/
def parseChannel : String → Option NotificationType
  | "email" => some NotificationType.email
  | "push" => some NotificationType.push
  | _ => none

/-- The raw inbound body before validation, with the channel still a free
    string. -/
structure RawRequest where
  request_id : String
  correlation_id : String
  notification_id : String
  channel : String
  template_id : String
  recipient : Recipient
  meta : Meta
deriving DecidableEq, Repr

/-- The send endpoint including framework validation: a body whose
    channel is not a known NotificationType is rejected by the
    RequestValidationError handler of app/core/exceptions.py with a 422
    before the endpoint body runs, so with no store access and no
    effects. -/
def handleSend (env : Env) (now : Nat) (freshId : String)
    (raw : RawRequest) (s0 : Store) : SendResult × Store × List Effect :=
  match parseChannel raw.channel with
  | none => (SendResult.error 422 "Validation error", s0, [])
  | some ty =>
      send_notification env now freshId
        { request_id := raw.request_id
          correlation_id := raw.correlation_id
          notification_id := raw.notification_id
          notification_type := ty
          template_id := raw.template_id
          recipient := raw.recipient
          meta := raw.meta } s0

/-- Result of the status lookup endpoint. -/
inductive StatusResult
  | ok (record : StatusRecord)
  | notFound (detail : String)
deriving DecidableEq, Repr

/-- get_notification_status of
    app/api/v1/endpoints/notifications.py: GET on the status of one
    notification; 404 when the record is absent or expired.  The store is
    returned unchanged to make the absence of mutation explicit. -/
def get_notification_status (s : Store) (notification_id : String) :
    StatusResult × Store :=
  match get_status s notification_id with
  | none =>
      (StatusResult.notFound
         ("Notification with ID " ++ notification_id ++ " not found."), s)
  | some r => (StatusResult.ok r, s)

/-- HTTP method of a declared route. -/
inductive Method
  | get
  | post
deriving DecidableEq, Repr

/-- Path patterns of the notification router. -/
inductive RoutePath
  | notificationsSend
  | notificationStatus
deriving DecidableEq, Repr

/-- The routes declared in app/api/v1/endpoints/notifications.py:
    POST /notifications/send and
    GET /notifications/id/status; no other route exists there. -/
def notificationRoutes : List (Method × RoutePath) :=
  [(Method.post, RoutePath.notificationsSend),
   (Method.get, RoutePath.notificationStatus)]

/-- State of a circuit breaker: closed, open since a given time, or in a
    half-open trial. -/
inductive BState
  | closed
  | opened (openedAt : Nat)
  | halfOpen
deriving DecidableEq, Repr

/-- A circuit breaker instance as configured in
    app/core/circuit_breaker.py: current state, consecutive-failure
    counter, failure threshold and reset timeout. -/
structure Breaker where
  state : BState
  fail_counter : Nat
  fail_max : Nat
  reset_timeout : Nat
deriving DecidableEq, Repr

/-- The user/template service breaker instance
    (app/core/circuit_breaker.py, defaults CIRCUIT_BREAKER_MAX_FAILURES=5,
    CIRCUIT_BREAKER_RESET_TIMEOUT=30). -/
def user_service_breaker : Breaker :=
  { state := BState.closed, fail_counter := 0, fail_max := 5, reset_timeout := 30 }

/-- The RabbitMQ breaker instance (app/core/circuit_breaker.py lines
    55-60: fail_max 3, reset_timeout 30). -/
def rabbitmq_breaker : Breaker :=
  { state := BState.closed, fail_counter := 0, fail_max := 3, reset_timeout := 30 }

/-- Result of one protected call through a breaker. -/
inductive BreakerCallResult
  | rejected
  | success
  | failure
deriving DecidableEq, Repr

/-- Modelled from the spec: the pybreaker.CircuitBreaker state machine
    applied by the decorator on UserService.get_user_data_and_preferences;
    the library itself is not part of this repository, so the transitions
    follow spec section 4.1.  One protected call at time now whose
    underlying operation would succeed iff opSucceeds: in closed the call
    passes through, success resets the counter, a failure increments it
    and reaching fail_max opens the breaker recording the time; in open
    before reset_timeout the call is rejected without invoking the
    dependency; once reset_timeout has elapsed the next call is the single
    trial (half-open for its duration), whose success closes the breaker
    and resets the counter and whose failure reopens it restarting the
    timer.  The returned Bool tells whether the dependency was invoked. -/
def breakerExecute (b : Breaker) (now : Nat) (opSucceeds : Bool) :
    BreakerCallResult × Breaker × Bool :=
  match b.state with
  | BState.closed =>
      if opSucceeds then
        (BreakerCallResult.success, { b with fail_counter := 0 }, true)
      else if b.fail_max ≤ b.fail_counter + 1 then
        (BreakerCallResult.failure,
         { b with state := BState.opened now, fail_counter := b.fail_counter + 1 },
         true)
      else
        (BreakerCallResult.failure, { b with fail_counter := b.fail_counter + 1 }, true)
  | BState.opened t =>
      if now < t + b.reset_timeout then
        (BreakerCallResult.rejected, b, false)
      else if opSucceeds then
        (BreakerCallResult.success,
         { b with state := BState.closed, fail_counter := 0 }, true)
      else
        (BreakerCallResult.failure, { b with state := BState.opened now }, true)
  | BState.halfOpen =>
      if opSucceeds then
        (BreakerCallResult.success,
         { b with state := BState.closed, fail_counter := 0 }, true)
      else
        (BreakerCallResult.failure, { b with state := BState.opened now }, true)

/-- Iterate n consecutive failing protected calls at time now. -/
def breakerFailN (b : Breaker) (now : Nat) : Nat → Breaker
  | 0 => b
  | n + 1 => breakerFailN ((breakerExecute b now false).2.1) now n

/-- One concurrent submission in the idempotency race: its fresh
    notification id, its request, the downstream world it would see, and
    the wall-clock time of its attempt. -/
structure RaceEntry where
  freshId : String
  req : NotificationRequest
  env : Env
  now : Nat
deriving Repr

/-- N submissions racing on the same idempotency key.  The list order is
    the serialization order that the store's atomic set-if-not-exists
    imposes on the check-and-store steps; the rest of each request touches
    no contended key (losers never write, the winner writes only under its
    own fresh id), so the produced side effects are those of this
    serialization whatever the fine-grained interleaving. -/
def runRace : List RaceEntry → Store → Store × List Effect
  | [], s => (s, [])
  | e :: rest, s =>
      let r1 := send_notification e.env e.now e.freshId e.req s
      let r2 := runRace rest r1.2.1
      (r2.1, r1.2.2 ++ r2.2)

/-- Does an effect publish a work item to the queue. -/
def isPublishEffect : Effect → Bool
  | Effect.publish _ => true
  | _ => false

/-- Does an effect create a status record. -/
def isCreateEffect : Effect → Bool
  | Effect.statusCreate _ => true
  | _ => false

def countPublish (l : List Effect) : Nat := (l.filter isPublishEffect).length

def countCreate (l : List Effect) : Nat := (l.filter isCreateEffect).length

/-- Sample opted-in user with both contact fields on file. -/
def goodUser : UserData :=
  { email := some "u1@example.com", push_token := some "fcm-token-1",
    prefEmail := true, prefPush := true }

/-- Sample valid email notification request. -/
def req0 : NotificationRequest :=
  { request_id := "req-1", correlation_id := "corr-1",
    notification_id := "notif-client-1",
    notification_type := NotificationType.email, template_id := "welcome",
    recipient := { user_id := "u1", email := some "u1@example.com",
                   push_token := some "fcm-token-1" },
    meta := { priority := "normal", timestamp := 7 } }

/-- Downstream world in which lookup and publish both succeed. -/
def envOk : Env := { userLookup := UserLookupOutcome.ok goodUser, publish := PublishOutcome.ok }

/-- Downstream world in which the user-service breaker is open. -/
def envBreakerOpen : Env :=
  { userLookup := UserLookupOutcome.breakerOpen, publish := PublishOutcome.ok }

/-- Does an effect call the user service. -/
def isUserLookupEffect : Effect → Bool
  | Effect.userLookup _ => true
  | _ => false

def countUserLookup (l : List Effect) : Nat := (l.filter isUserLookupEffect).length

/-- Sample accepted response written by the admission path at time 5. -/
def resp0 : NotificationResponse :=
  { request_id := "req-1", notification_id := "n1", status := "queued",
    notification_type := NotificationType.email, created_at := 5,
    message := defaultResponseMessage }

/-- A second submission racing on the same idempotency key req-1. -/
def req0b : NotificationRequest :=
  { request_id := "req-1", correlation_id := "corr-2",
    notification_id := "notif-client-2",
    notification_type := NotificationType.email, template_id := "welcome",
    recipient := { user_id := "u1", email := some "u1@example.com",
                   push_token := some "fcm-token-1" },
    meta := { priority := "high", timestamp := 8 } }

/-- Concrete race: the submission serialized first by the atomic
    set-if-not-exists. -/
def raceWinner : RaceEntry :=
  { freshId := "n1", req := req0, env := envOk, now := 7 }

/-- Concrete race: a concurrent submission with the same key serialized
    second (its own downstream world is irrelevant). -/
def raceLoser : RaceEntry :=
  { freshId := "n2", req := req0b, env := envBreakerOpen, now := 8 }

theorem alookup_ainsert {α : Type} (l : List (String × α)) (key : String) (v : α) :
    alookup (ainsert l key v) key = some v := by
  simp [ainsert, alookup]

theorem alookup_filter_ne {α : Type} (l : List (String × α)) (k key : String)
    (h : k ≠ key) :
    alookup (l.filter (fun p => p.1 ≠ k)) key = alookup l key := by
  have hk : ¬ key = k := fun e => h e.symm
  induction l with
  | nil => rfl
  | cons p rest ih =>
    by_cases hp : p.1 = k
    · have hpk : ¬ p.1 = key := by rw [hp]; exact h
      simp_all [List.filter_cons, alookup]
    · by_cases hq : p.1 = key
      · simp_all [List.filter_cons, alookup]
      · simp_all [List.filter_cons, alookup]

theorem alookup_ainsert_ne {α : Type} (l : List (String × α)) (k key : String)
    (v : α) (h : k ≠ key) : alookup (ainsert l k v) key = alookup l key := by
  simp only [ainsert, alookup, if_neg h]
  exact alookup_filter_ne l k key h

theorem countPublish_append (a b : List Effect) :
    countPublish (a ++ b) = countPublish a + countPublish b := by
  simp [countPublish, List.filter_append]

theorem countCreate_append (a b : List Effect) :
    countCreate (a ++ b) = countCreate a + countCreate b := by
  simp [countCreate, List.filter_append]

/-- C1: the claim asserts that a valid request with a fresh idempotency
    key, an opted-in recipient with the required contact field, a
    successful preference lookup and a successful publish is answered 202
    with the fresh identifier and status queued, and that a queued
    StatusRecord is created.  The code cannot do this: at the failing
    input (a valid fresh-key email request to an opted-in recipient with
    a healthy downstream world) the endpoint reads request.user_id,
    which NotificationRequest does not define, and the uncaught
    AttributeError yields a 500 after the key was claimed, with no
    lookup, no publish and no StatusRecord. -/
theorem c1_fresh_valid_request_crashes_with_500 :
    send_notification envOk 7 "n1" req0 emptyStore =
      (SendResult.error 500 attributeErrorDetail,
       { idem := [("req-1", "n1")], statusTab := [] },
       [Effect.idemCheck "req-1"]) ∧
    get_status (send_notification envOk 7 "n1" req0 emptyStore).2.1 "n1" =
      none := by
  exact ⟨rfl, rfl⟩

/-- C7: a request whose channel is not one of the two known values is
    rejected by validation with a 422 before any side effect: the store
    is untouched (no idempotency lock, no StatusRecord) and the effect
    trace is empty. -/
theorem c7_unknown_channel_rejected_no_side_effect
    (env : Env) (now : Nat) (freshId : String) (raw : RawRequest) (s0 : Store)
    (hchan : parseChannel raw.channel = none) :
    handleSend env now freshId raw s0 =
      (SendResult.error 422 "Validation error", s0, []) := by
  simp [handleSend, hchan]

/-- C7 witness: channel sms is rejected with no side effects. -/
theorem c7_unknown_channel_rejected_no_side_effect_witness :
    parseChannel "sms" = none ∧
    handleSend envOk 3 "n9"
      { request_id := "req-7", correlation_id := "corr-7",
        notification_id := "notif-client-7", channel := "sms",
        template_id := "welcome",
        recipient := { user_id := "u1", email := some "u1@example.com",
                       push_token := none },
        meta := { priority := "normal", timestamp := 3 } }
      emptyStore =
      (SendResult.error 422 "Validation error", emptyStore, []) :=
  ⟨rfl,
   c7_unknown_channel_rejected_no_side_effect envOk 3 "n9"
     { request_id := "req-7", correlation_id := "corr-7",
       notification_id := "notif-client-7", channel := "sms",
       template_id := "welcome",
       recipient := { user_id := "u1", email := some "u1@example.com",
                      push_token := none },
       meta := { priority := "normal", timestamp := 3 } }
     emptyStore rfl⟩

/-- C10: a duplicate submission whose idempotency key still maps to a
    notification identifier but whose StatusRecord has expired is
    answered 202 with the original identifier, status reported as queued
    and created_at set to the current time, and the store is left
    unchanged. -/
theorem c10_duplicate_with_expired_status_queued_fallback
    (env : Env) (now : Nat) (freshId : String) (req : NotificationRequest)
    (s0 : Store) (existingId : String)
    (hdup : alookup s0.idem req.request_id = some existingId)
    (hexp : get_status s0 existingId = none) :
    send_notification env now freshId req s0 =
      (SendResult.accepted
         { request_id := req.request_id, notification_id := existingId,
           status := "queued", notification_type := req.notification_type,
           created_at := now, message := defaultResponseMessage }
         ("Idempotent request: Notification " ++ existingId ++
          " status retrieved."),
       s0,
       [Effect.idemCheck req.request_id, Effect.statusGet existingId]) := by
  simp [send_notification, check_and_store_idempotency_key, hdup, hexp]

/-- C10 witness: concrete duplicate whose status record is gone. -/
theorem c10_duplicate_with_expired_status_queued_fallback_witness :
    send_notification envOk 9 "n2" req0
      { idem := [("req-1", "n1")], statusTab := [] } =
      (SendResult.accepted
         { request_id := "req-1", notification_id := "n1",
           status := "queued", notification_type := NotificationType.email,
           created_at := 9, message := defaultResponseMessage }
         ("Idempotent request: Notification " ++ "n1" ++ " status retrieved."),
       { idem := [("req-1", "n1")], statusTab := [] },
       [Effect.idemCheck "req-1", Effect.statusGet "n1"]) :=
  c10_duplicate_with_expired_status_queued_fallback envOk 9 "n2" req0
    { idem := [("req-1", "n1")], statusTab := [] } "n1" rfl rfl

/-- C2: the claim asserts that two sequential submissions with the same
    idempotency key return the same notification identifier, the second
    one short-circuiting with no preference lookup and no publish.  The
    code cannot return the same identifier twice: at the failing input
    the first fresh-key submission crashes with the uncaught
    AttributeError 500 and returns no notification identifier at all,
    although it has already claimed the key; the second submission does
    short-circuit after the idempotency check (trace is exactly the
    check and one status read, no lookup, no publish) and returns 202
    carrying the identifier that the crashed first call locked. -/
theorem c2_first_crashes_second_short_circuits :
    (send_notification envOk 7 "n1" req0 emptyStore).1 =
      SendResult.error 500 attributeErrorDetail ∧
    send_notification envOk 8 "n2" req0b
        (send_notification envOk 7 "n1" req0 emptyStore).2.1 =
      (SendResult.accepted
         { request_id := "req-1", notification_id := "n1",
           status := "queued", notification_type := NotificationType.email,
           created_at := 8, message := defaultResponseMessage }
         ("Idempotent request: Notification " ++ "n1" ++ " status retrieved."),
       { idem := [("req-1", "n1")], statusTab := [] },
       [Effect.idemCheck "req-1", Effect.statusGet "n1"]) ∧
    countUserLookup
      (send_notification envOk 8 "n2" req0b
        (send_notification envOk 7 "n1" req0 emptyStore).2.1).2.2 = 0 ∧
    countPublish
      (send_notification envOk 8 "n2" req0b
        (send_notification envOk 7 "n1" req0 emptyStore).2.1).2.2 = 0 := by
  exact ⟨rfl, rfl, rfl, rfl⟩

/-- C3 counterexample: a concrete run in which the idempotency lock is
    acquired and the rest of the pipeline then fails; even with the user
    service breaker open the endpoint never reaches the lookup, the
    fresh path dies on the uncaught AttributeError and the request ends
    in a 500, with no StatusRecord of any kind under the fresh
    notification id (the status table stays empty): no failed record
    with any error detail is retrievable, contrary to the claim. -/
theorem c3_counterexample_no_failed_record_stored :
    (send_notification envBreakerOpen 5 "n1" req0 emptyStore).1 =
      SendResult.error 500 attributeErrorDetail ∧
    get_status (send_notification envBreakerOpen 5 "n1" req0 emptyStore).2.1 "n1" =
      none ∧
    (send_notification envBreakerOpen 5 "n1" req0 emptyStore).2.1.statusTab = [] := by
  refine ⟨rfl, rfl, rfl⟩

/-- C3 amended: for every request in which the idempotency lock was
    acquired, the fresh-path continuation fails unconditionally (the
    endpoint reads the nonexistent request.user_id and the uncaught
    AttributeError is reported as a 500, whatever the downstream world),
    and no StatusRecord of any kind is stored under the freshly minted
    notification identifier, so no failure reason is retrievable via the
    status-lookup operation; the idempotency key nevertheless remains
    claimed by the fresh identifier for its TTL. -/
theorem c3_amended_fresh_path_500_no_record_key_kept
    (env : Env) (now : Nat) (freshId : String) (req : NotificationRequest)
    (s0 : Store)
    (hfresh : alookup s0.idem req.request_id = none)
    (hnostatus : get_status s0 freshId = none) :
    (send_notification env now freshId req s0).1 =
      SendResult.error 500 attributeErrorDetail ∧
    get_status (send_notification env now freshId req s0).2.1 freshId = none ∧
    alookup ((send_notification env now freshId req s0).2.1).idem req.request_id =
      some freshId := by
  simp only [get_status] at hnostatus
  simp [send_notification, check_and_store_idempotency_key, hfresh,
    get_status, alookup_ainsert, hnostatus]

/-- C3 amended witness: concrete fresh-key submission taken after the
    lock, with the user service breaker open. -/
theorem c3_amended_fresh_path_500_no_record_key_kept_witness :
    (send_notification envBreakerOpen 6 "n3" req0 emptyStore).1 =
      SendResult.error 500 attributeErrorDetail ∧
    get_status (send_notification envBreakerOpen 6 "n3" req0 emptyStore).2.1 "n3" =
      none ∧
    alookup ((send_notification envBreakerOpen 6 "n3" req0 emptyStore).2.1).idem
      "req-1" = some "n3" :=
  c3_amended_fresh_path_500_no_record_key_kept envBreakerOpen 6 "n3" req0
    emptyStore rfl rfl

/-- A submission finding its idempotency key already bound mutates
    nothing: the store is returned unchanged and the trace is just the
    check and a status read. -/
theorem send_dup_no_side_effects
    (env : Env) (now : Nat) (fid : String) (req : NotificationRequest)
    (s : Store) (eid : String)
    (hdup : alookup s.idem req.request_id = some eid) :
    (send_notification env now fid req s).2.1 = s ∧
    (send_notification env now fid req s).2.2 =
      [Effect.idemCheck req.request_id, Effect.statusGet eid] := by
  simp [send_notification, check_and_store_idempotency_key, hdup]

/-- A submission winning the idempotency race claims the key but, dying
    on the nonexistent request.user_id right after the check, performs
    no publish and no status creation either. -/
theorem send_fresh_crash
    (env : Env) (now : Nat) (fid : String) (req : NotificationRequest) (s : Store)
    (hfresh : alookup s.idem req.request_id = none) :
    send_notification env now fid req s =
      (SendResult.error 500 attributeErrorDetail,
       { s with idem := ainsert s.idem req.request_id fid },
       [Effect.idemCheck req.request_id]) := by
  simp [send_notification, check_and_store_idempotency_key, hfresh]

/-- Once the key is held, any further submissions with that key leave the
    store unchanged and contribute no publish and no status creation,
    whatever their downstream worlds, clocks and fresh ids. -/
theorem runRace_held_key
    (key eid : String) (entries : List RaceEntry) (s : Store)
    (hkeys : ∀ x ∈ entries, x.req.request_id = key)
    (hheld : alookup s.idem key = some eid) :
    (runRace entries s).1 = s ∧
    countPublish (runRace entries s).2 = 0 ∧
    countCreate (runRace entries s).2 = 0 := by
  induction entries with
  | nil => simp [runRace, countPublish, countCreate]
  | cons e rest ih =>
      have hk : e.req.request_id = key := hkeys e (by simp)
      have hd : alookup s.idem e.req.request_id = some eid := by
        rw [hk]; exact hheld
      obtain ⟨hs, ht⟩ := send_dup_no_side_effects e.env e.now e.freshId e.req s eid hd
      obtain ⟨ih1, ih2, ih3⟩ := ih (fun x hx => hkeys x (by simp [hx]))
      simp only [runRace, hs, ht]
      refine ⟨ih1, ?_, ?_⟩
      · rw [countPublish_append, ih2]; rfl
      · rw [countCreate_append, ih3]; rfl

/-- C4: the claim asserts that N concurrent submissions with the same
    fresh key produce exactly one StatusRecord and at most one
    QueueWorkItem, the atomic set-if-not-exists resolving the race.  The
    set-if-not-exists does admit exactly one winner (at the failing
    input of two racing submissions on key req-1, the key ends bound to
    the first serialized submission's fresh id), but the winner then
    crashes on the nonexistent request.user_id before any publish or
    status write, so zero StatusRecords and zero work items are
    produced, never exactly one. -/
theorem c4_race_single_winner_but_zero_records :
    alookup (runRace [raceWinner, raceLoser] emptyStore).1.idem "req-1" =
      some "n1" ∧
    countPublish (runRace [raceWinner, raceLoser] emptyStore).2 = 0 ∧
    countCreate (runRace [raceWinner, raceLoser] emptyStore).2 = 0 ∧
    (runRace [raceWinner, raceLoser] emptyStore).1.statusTab = [] := by
  exact ⟨rfl, rfl, rfl, rfl⟩

/-- Starting closed with a zeroed counter, n consecutive failures with n
    reaching fail_max leave the breaker open, stamped with the time of
    the failures. -/
theorem breakerFailN_opens (now : Nat) :
    ∀ (n fc fm rt : Nat), fc + n = fm → 0 < n →
    (breakerFailN
      { state := BState.closed, fail_counter := fc, fail_max := fm,
        reset_timeout := rt } now n).state = BState.opened now := by
  intro n
  induction n with
  | zero => intro fc fm rt h hpos; exact absurd hpos (by omega)
  | succ k ih =>
      intro fc fm rt h hpos
      by_cases hk : k = 0
      · subst hk
        have hbound : fm ≤ fc + 1 := by omega
        simp [breakerFailN, breakerExecute, hbound]
      · have hbound : ¬ fm ≤ fc + 1 := by omega
        simp only [breakerFailN, breakerExecute]
        simp only [Bool.false_eq_true, if_false, if_neg hbound]
        exact ih (fc + 1) fm rt (by omega) (by omega)

/-- C6: a breaker starting closed with a clean counter opens after
    fail_max consecutive failures; while open and before reset_timeout
    every call is rejected without invoking the dependency; once
    reset_timeout has elapsed the next call is the single trial, which
    does invoke the dependency; a successful trial returns the breaker to
    closed with the failure counter reset to zero, while a failed trial
    reopens it restarting the timer (so no second trial runs meanwhile). -/
theorem c6_circuit_breaker_state_machine
    (fm rt now tOpen nBlocked nTrial : Nat) (op : Bool) (c : Breaker)
    (hfm : 0 < fm)
    (hc : c.state = BState.opened tOpen)
    (hBlocked : nBlocked < tOpen + c.reset_timeout)
    (hTrial : tOpen + c.reset_timeout ≤ nTrial) :
    (breakerFailN
      { state := BState.closed, fail_counter := 0, fail_max := fm,
        reset_timeout := rt } now fm).state = BState.opened now ∧
    breakerExecute c nBlocked op = (BreakerCallResult.rejected, c, false) ∧
    (breakerExecute c nTrial true).2.2 = true ∧
    (breakerExecute c nTrial true).2.1 =
      { c with state := BState.closed, fail_counter := 0 } ∧
    (breakerExecute c nTrial false).2.1 =
      { c with state := BState.opened nTrial } := by
  obtain ⟨st, fc2, fm2, rt2⟩ := c
  simp only at hc hBlocked hTrial
  subst hc
  have hTrialNeg : ¬ nTrial < tOpen + rt2 := by omega
  refine ⟨breakerFailN_opens now fm 0 fm rt (by omega) hfm, ?_, ?_, ?_, ?_⟩ <;>
    simp [breakerExecute, hBlocked, hTrialNeg]

/-- C6 witness: the rabbitmq breaker configuration (fail_max 3,
    reset_timeout 30) opened at time 10, blocked at 39, tried at 40. -/
theorem c6_circuit_breaker_state_machine_witness :
    (breakerFailN rabbitmq_breaker 2 3).state = BState.opened 2 ∧
    breakerExecute
      { state := BState.opened 10, fail_counter := 3, fail_max := 3,
        reset_timeout := 30 } 39 true =
      (BreakerCallResult.rejected,
       { state := BState.opened 10, fail_counter := 3, fail_max := 3,
         reset_timeout := 30 }, false) ∧
    (breakerExecute
      { state := BState.opened 10, fail_counter := 3, fail_max := 3,
        reset_timeout := 30 } 40 true).2.2 = true ∧
    (breakerExecute
      { state := BState.opened 10, fail_counter := 3, fail_max := 3,
        reset_timeout := 30 } 40 true).2.1 =
      { state := BState.closed, fail_counter := 0, fail_max := 3,
        reset_timeout := 30 } ∧
    (breakerExecute
      { state := BState.opened 10, fail_counter := 3, fail_max := 3,
        reset_timeout := 30 } 40 false).2.1 =
      { state := BState.opened 40, fail_counter := 3, fail_max := 3,
        reset_timeout := 30 } :=
  c6_circuit_breaker_state_machine 3 30 2 10 39 40 true
    { state := BState.opened 10, fail_counter := 3, fail_max := 3,
      reset_timeout := 30 }
    (by decide) rfl (by decide) (by decide)

/-- C8 counterexample: a record created and then updated to delivered at
    the same utcnow microsecond ends with updated_at equal to created_at,
    not strictly greater, so the claim fails as universally stated. -/
theorem c8_counterexample_equal_timestamps_not_strict :
    get_status
      ((update_status (set_initial_status emptyStore resp0) "n1" "delivered"
          none 5).2) "n1" =
      some { request_id := "req-1", notification_id := "n1",
             status := "delivered", notification_type := NotificationType.email,
             created_at := 5, updated_at := 5,
             message := defaultResponseMessage, error_message := none } ∧
    ¬ ((5 : Nat) > 5) := by
  exact ⟨rfl, by omega⟩

/-- C8 amended: a StatusRecord written by the admission path and then
    updated by the worker-facing update operation to delivered is read
    back with status delivered and updated_at equal to the update time,
    which is strictly greater than created_at whenever the update happens
    at a strictly later timestamp (the code itself enforces no
    strictness). -/
theorem c8_amended_delivered_roundtrip_strict_when_clock_advances
    (s : Store) (resp : NotificationResponse) (t2 : Nat)
    (ht : resp.created_at < t2) :
    get_status
      ((update_status (set_initial_status s resp) resp.notification_id
          "delivered" none t2).2) resp.notification_id =
      some { request_id := resp.request_id,
             notification_id := resp.notification_id,
             status := "delivered",
             notification_type := resp.notification_type,
             created_at := resp.created_at, updated_at := t2,
             message := resp.message, error_message := none } ∧
    resp.created_at < t2 := by
  refine ⟨?_, ht⟩
  simp [update_status, set_initial_status, get_status, alookup_ainsert]

/-- C8 amended witness: create at 5, update to delivered at 6. -/
theorem c8_amended_delivered_roundtrip_strict_when_clock_advances_witness :
    get_status
      ((update_status (set_initial_status emptyStore resp0) resp0.notification_id
          "delivered" none 6).2) resp0.notification_id =
      some { request_id := resp0.request_id,
             notification_id := resp0.notification_id,
             status := "delivered",
             notification_type := resp0.notification_type,
             created_at := resp0.created_at, updated_at := 6,
             message := resp0.message, error_message := none } ∧
    resp0.created_at < 6 :=
  c8_amended_delivered_roundtrip_strict_when_clock_advances emptyStore resp0 6
    (by decide)

/-- C9 counterexample: the notification router declares no worker-facing
    POST status-update route; only the send route and the GET status
    route exist. -/
theorem c9_counterexample_no_post_status_route :
    (Method.post, RoutePath.notificationStatus) ∉ notificationRoutes := by
  decide

/-- C9 amended: no POST status-update endpoint is exposed; the only
    status route is the read-only GET, which returns the record when
    present and a 404-equivalent otherwise without mutating the store,
    while the unexposed StatusService.update_status returns a negative
    result when the record does not exist (and validates nothing about
    the new status value). -/
theorem c9_amended_status_update_not_exposed
    (s1 s2 s3 : Store) (nid1 nid2 nid3 : String) (r : StatusRecord)
    (newStatus : String) (err : Option String) (t : Nat)
    (h1 : get_status s1 nid1 = some r)
    (h2 : get_status s2 nid2 = none)
    (h3 : get_status s3 nid3 = none) :
    (Method.post, RoutePath.notificationStatus) ∉ notificationRoutes ∧
    get_notification_status s1 nid1 = (StatusResult.ok r, s1) ∧
    get_notification_status s2 nid2 =
      (StatusResult.notFound
         ("Notification with ID " ++ nid2 ++ " not found."), s2) ∧
    update_status s3 nid3 newStatus err t = (false, s3) := by
  have h3a : alookup s3.statusTab nid3 = none := by
    simpa [get_status] using h3
  refine ⟨by decide, ?_, ?_, ?_⟩ <;>
    simp [get_notification_status, update_status, h1, h2, h3a]

/-- C9 amended witness: concrete stores for the three behaviors. -/
theorem c9_amended_status_update_not_exposed_witness :
    (Method.post, RoutePath.notificationStatus) ∉ notificationRoutes ∧
    get_notification_status (set_initial_status emptyStore resp0) "n1" =
      (StatusResult.ok
         { request_id := "req-1", notification_id := "n1", status := "queued",
           notification_type := NotificationType.email, created_at := 5,
           updated_at := 5, message := defaultResponseMessage,
           error_message := none },
       set_initial_status emptyStore resp0) ∧
    get_notification_status emptyStore "missing" =
      (StatusResult.notFound
         ("Notification with ID " ++ "missing" ++ " not found."), emptyStore) ∧
    update_status emptyStore "missing" "delivered" none 6 = (false, emptyStore) :=
  c9_amended_status_update_not_exposed
    (set_initial_status emptyStore resp0) emptyStore emptyStore
    "n1" "missing" "missing"
    { request_id := "req-1", notification_id := "n1", status := "queued",
      notification_type := NotificationType.email, created_at := 5,
      updated_at := 5, message := defaultResponseMessage, error_message := none }
    "delivered" none 6 rfl rfl rfl

end Gateway
